import Mathlib

/-!
# Zillagram — message fingerprinting, propagation reconstruction and leak scoring

A shallow embedding of the message-fingerprinting / cross-chat correlation /
leak-attribution core of the Zillagram repository, together with proofs of the
testable properties stated in its specification.

Embedded from the source:
* `ai_agents/analysis_engines/message_fingerprinter.py`
  (`create_message_fingerprint`, `_generate_content_hash`, …);
* `ai_agents/analysis_engines/cross_chat_correlator.py`
  (`_reconstruct_propagation_path`);
* `ai_agents/analysis_engines/source_attribution.py`
  (`_reconstruct_forwarding_chain`);
* `ai_agents/security_monitors/forwarding_monitor.py`
  (`analyze_message_leakage`, `_check_trust_network`,
  `monitor_conversation_leaks`).

The source hashes with `hashlib.sha256(...).hexdigest()`; SHA-256 is
implemented here concretely over `Nat` (32-bit words represented as naturals
reduced mod `2 ^ 32`), so that equality and inequality of digests on concrete
inputs are decidable facts rather than assumptions.

Several helper methods are *called* by the embedded functions but are defined
nowhere in the repository (`_normalize_text`, `_generate_ngram_hash`,
`_is_likely_forward`, `_calculate_leak_confidence`,
`_calculate_relationship_score`, `_check_temporal_proximity`, the semantic /
style feature extractors).  Those are modelled from the specification; each
carries a doc comment starting `Modelled from the spec:`.
-/

namespace Zillagram

/-! ## SHA-256 over `Nat`

32-bit words are naturals `< 2 ^ 32`; every arithmetic step reduces mod
`2 ^ 32` explicitly. -/

/-- Addition of 32-bit words, reduced mod `2 ^ 32`. -/
def add32 (a b : Nat) : Nat := (a + b) % 4294967296

/-- Right rotation of a 32-bit word by `n` places. -/
def rotr (n x : Nat) : Nat := (x / 2 ^ n) + (x % 2 ^ n) * 2 ^ (32 - n)

/-- Bitwise complement within 32 bits (valid for `x < 2 ^ 32`). -/
def not32 (x : Nat) : Nat := 4294967295 - x

/-- Three-way xor. -/
def xor3 (a b c : Nat) : Nat := (a ^^^ b) ^^^ c

/-- The 64 SHA-256 round constants of FIPS 180-4, in decimal. -/
def shaK : List Nat :=
  [1116352408, 1899447441, 3049323471, 3921009573, 961987163,
   1508970993, 2453635748, 2870763221, 3624381080, 310598401,
   607225278, 1426881987, 1925078388, 2162078206, 2614888103,
   3248222580, 3835390401, 4022224774, 264347078, 604807628,
   770255983, 1249150122, 1555081692, 1996064986, 2554220882,
   2821834349, 2952996808, 3210313671, 3336571891, 3584528711,
   113926993, 338241895, 666307205, 773529912, 1294757372,
   1396182291, 1695183700, 1986661051, 2177026350, 2456956037,
   2730485921, 2820302411, 3259730800, 3345764771, 3516065817,
   3600352804, 4094571909, 275423344, 430227734, 506948616,
   659060556, 883997877, 958139571, 1322822218, 1537002063,
   1747873779, 1955562222, 2024104815, 2227730452, 2361852424,
   2428436474, 2756734187, 3204031479, 3329325298]

/-- Working state of the compression function: eight 32-bit words. -/
structure SHAState where
  a : Nat
  b : Nat
  c : Nat
  d : Nat
  e : Nat
  f : Nat
  g : Nat
  h : Nat

/-- The SHA-256 initial hash value of FIPS 180-4, in decimal. -/
def shaInit : SHAState :=
  ⟨1779033703, 3144134277, 1013904242, 2773480762,
   1359893119, 2600822924, 528734635, 1541459225⟩

/-- One SHA-256 compression round with schedule word `w` and constant `k`. -/
def shaRound (s : SHAState) (wk : Nat × Nat) : SHAState :=
  let S1 := xor3 (rotr 6 s.e) (rotr 11 s.e) (rotr 25 s.e)
  let ch := (s.e &&& s.f) ^^^ (not32 s.e &&& s.g)
  let temp1 := add32 (add32 (add32 s.h S1) (add32 ch wk.2)) wk.1
  let S0 := xor3 (rotr 2 s.a) (rotr 13 s.a) (rotr 22 s.a)
  let maj := xor3 (s.a &&& s.b) (s.a &&& s.c) (s.b &&& s.c)
  let temp2 := add32 S0 maj
  ⟨add32 temp1 temp2, s.a, s.b, s.c, add32 s.d temp1, s.e, s.f, s.g⟩

/-- Small sigma 0 of the message schedule. -/
def ssig0 (x : Nat) : Nat := xor3 (rotr 7 x) (rotr 18 x) (x / 2 ^ 3)

/-- Small sigma 1 of the message schedule. -/
def ssig1 (x : Nat) : Nat := xor3 (rotr 17 x) (rotr 19 x) (x / 2 ^ 10)

/-- Extend the message schedule `n` more words; `acc` holds the words
produced so far in reverse order (most recent first). -/
def scheduleAux : Nat → List Nat → List Nat
  | 0, acc => acc
  | n + 1, acc =>
      let wi := add32 (add32 (ssig1 (acc.getD 1 0)) (acc.getD 6 0))
                      (add32 (ssig0 (acc.getD 14 0)) (acc.getD 15 0))
      scheduleAux n (wi :: acc)

/-- The 64-word message schedule of a 16-word block. -/
def schedule (block : List Nat) : List Nat :=
  (scheduleAux 48 block.reverse).reverse

/-- Compress one 16-word block into the running hash value. -/
def compressBlock (s : SHAState) (block : List Nat) : SHAState :=
  let t := ((schedule block).zip shaK).foldl shaRound s
  ⟨add32 s.a t.a, add32 s.b t.b, add32 s.c t.c, add32 s.d t.d,
   add32 s.e t.e, add32 s.f t.f, add32 s.g t.g, add32 s.h t.h⟩

/-- Consume the padded message sixteen words at a time. -/
def processWords (s : SHAState) : List Nat → SHAState
  | w0 :: w1 :: w2 :: w3 :: w4 :: w5 :: w6 :: w7 ::
    w8 :: w9 :: w10 :: w11 :: w12 :: w13 :: w14 :: w15 :: rest =>
      processWords (compressBlock s
        [w0, w1, w2, w3, w4, w5, w6, w7, w8, w9, w10, w11, w12, w13, w14, w15])
        rest
  | _ => s

/-- Big-endian bytes of a value, `n` bytes wide. -/
def beBytes : Nat → Nat → List Nat
  | 0, _ => []
  | n + 1, v => beBytes n (v / 256) ++ [v % 256]

/-- Group bytes into 32-bit words, big-endian. -/
def bytesToWords : List Nat → List Nat
  | b0 :: b1 :: b2 :: b3 :: rest =>
      (((b0 * 256 + b1) * 256 + b2) * 256 + b3) :: bytesToWords rest
  | _ => []

/-- SHA-256 padding: `0x80`, zeros to 56 mod 64, then the bit length as
eight big-endian bytes. -/
def padMessage (msg : List Nat) : List Nat :=
  let len := msg.length
  let z := (119 - len % 64) % 64
  msg ++ 128 :: List.replicate z 0 ++ beBytes 8 (len * 8)

/-- The UTF-8 encoding of a character, as `str.encode()` produces it. -/
def utf8Char (c : Char) : List Nat :=
  let n := c.toNat
  if n < 128 then [n]
  else if n < 2048 then [192 + n / 64, 128 + n % 64]
  else if n < 65536 then [224 + n / 4096, 128 + n / 64 % 64, 128 + n % 64]
  else [240 + n / 262144, 128 + n / 4096 % 64, 128 + n / 64 % 64, 128 + n % 64]

/-- The UTF-8 bytes of a string. -/
def utf8Bytes (s : String) : List Nat := (s.toList.map utf8Char).flatten

/-- The lowercase hex digit character for a value below 16: code point 48
(`'0'`) upward for digits, 87 + n (`'a'` at 10) for letters. -/
def hexDigit (n : Nat) : Char :=
  if n < 10 then Char.ofNat (48 + n) else Char.ofNat (87 + n)

/-- A 32-bit word as eight lowercase hex digits. -/
def hex8 (v : Nat) : String :=
  String.mk ((List.range 8).map fun i => hexDigit (v / 16 ^ (7 - i) % 16))

/-- SHA-256 of the byte list, as the 64-character lowercase hex digest. -/
def sha256HexBytes (msg : List Nat) : String :=
  let s := processWords shaInit (bytesToWords (padMessage msg))
  hex8 s.a ++ hex8 s.b ++ hex8 s.c ++ hex8 s.d ++
  hex8 s.e ++ hex8 s.f ++ hex8 s.g ++ hex8 s.h

/-- `hashlib.sha256(text.encode()).hexdigest()`: SHA-256 of the UTF-8 bytes
of a string, as lowercase hex. -/
def sha256Hex (s : String) : String := sha256HexBytes (utf8Bytes s)

/-- Python's `s[:n]` slicing on a hex digest, by characters (structural, so
concrete digests reduce in the kernel). -/
def strTake (s : String) (n : Nat) : String := String.mk (s.toList.take n)

/-! ## Data model

A message as the embedded functions read it: the Python code receives
messages as dictionaries and accesses `message.get('text', '')`,
`message['user_id']`, `message['chat_id']`, `message['date']`,
`message['id']`.  The possibly-absent `text` key is an `Option`. -/

/-- A message record. `text = none` models a dictionary without a
`'text'` key. -/
structure Message where
  id : Int
  user_id : Int
  chat_id : Int
  date : Int
  text : Option String
deriving DecidableEq

/-- `message.get('text', '')`: the text, defaulting to the empty string. -/
def Message.textD (m : Message) : String := m.text.getD ""

/-- The `MessageFingerprint` dataclass of `message_fingerprinter.py`. -/
structure MessageFingerprint where
  content_hash : String
  semantic_hash : String
  style_signature : String
  temporal_pattern : String
  metadata_hash : String
  composite_fingerprint : String
deriving DecidableEq

/-! ## Fingerprint generator (`message_fingerprinter.py`) -/

/-- Modelled from the spec: the normalization strips
"zero-width/invisible characters".  The common zero-width code points. -/
def isZeroWidth (c : Char) : Bool :=
  c = '\u200B' || c = '\u200C' || c = '\u200D' || c = '\uFEFF'

/-- Split a character list on whitespace, dropping empty tokens; `cur` holds
the current token reversed.  Structural recursion so concrete inputs reduce
in the kernel. -/
def splitWsAux : List Char → List Char → List String
  | [], cur => if cur.isEmpty then [] else [String.mk cur.reverse]
  | c :: cs, cur =>
      if c.isWhitespace then
        if cur.isEmpty then splitWsAux cs []
        else String.mk cur.reverse :: splitWsAux cs []
      else splitWsAux cs (c :: cur)

/-- The whitespace-separated tokens of a text after lower-casing and
stripping zero-width characters.  Texts that "differ only in
whitespace and/or letter case" have equal `wsTokens`. -/
def wsTokens (text : String) : List String :=
  splitWsAux ((text.toList.filter fun c => !isZeroWidth c).map Char.toLower) []

/-- Modelled from the spec: `_normalize_text` is called by
`_generate_content_hash` but defined nowhere in the repository.  The spec:
"Normalization: lower-case, collapse whitespace, strip zero-width/invisible
characters before hashing". -/
def _normalize_text (text : String) : String :=
  String.intercalate " " (wsTokens text)

/-- The consecutive character n-grams of a text. -/
def ngrams (text : String) (n : Nat) : List String :=
  (List.range (text.toList.length + 1 - n)).map fun i =>
    String.mk ((text.toList.drop i).take n)

/-- Modelled from the spec: `_generate_ngram_hash` is called by
`_generate_content_hash` but defined nowhere in the repository.  The spec
describes the content digest as also covering the raw text; the helper is
modelled as the SHA-256 digest of the raw text's character n-grams. -/
def _generate_ngram_hash (text : String) (n : Nat) : String :=
  sha256Hex (String.intercalate "|" (ngrams text n))

/-- Python `text.lower()`. -/
def pyLower (text : String) : String := String.mk (text.toList.map Char.toLower)

/-- `_generate_content_hash` (source, `message_fingerprinter.py` 37-49):
hash the normalized text, the raw lower-cased text and an n-gram hash,
join the three digests, hash again and keep 32 hex characters. -/
def _generate_content_hash (text : String) : String :=
  let normalized := _normalize_text text
  let hashes := [sha256Hex normalized, sha256Hex (pyLower text),
                 _generate_ngram_hash text 3]
  strTake (sha256Hex (String.join hashes)) 32

/-- Modelled from the spec: the semantic / style feature extractors called by
`_generate_semantic_hash` and `_analyze_writing_style`
(`_extract_key_entities`, `_extract_sentiment_profile`,
`_extract_topic_signature`, `_extract_syntactic_pattern`, the six style
metrics) are defined nowhere in the repository; the spec makes feature
extraction "an external collaborator (pluggable NLP provider)".  A provider
is a record of pure functions of the text. -/
structure FeatureProvider where
  extract_key_entities : String → String
  extract_sentiment_profile : String → String
  extract_topic_signature : String → String
  extract_syntactic_pattern : String → String
  calculate_avg_sentence_length : String → Nat
  calculate_punctuation_rate : String → Nat
  analyze_capitalization : String → String
  calculate_vocabulary_richness : String → Nat
  analyze_emoji_usage : String → String
  estimate_typing_rhythm : String → String

/-- `_generate_semantic_hash` (source, lines 51-62): serialize the four
semantic elements deterministically (`json.dumps(..., sort_keys=True)`)
and keep 32 hex characters of the digest. -/
def _generate_semantic_hash (p : FeatureProvider) (text : String) : String :=
  let semantic_string := String.intercalate ","
    [p.extract_key_entities text, p.extract_sentiment_profile text,
     p.extract_topic_signature text, p.extract_syntactic_pattern text]
  strTake (sha256Hex semantic_string) 32

/-- `_analyze_writing_style` (source, lines 64-75): serialize the six style
metrics in sorted key order and keep 32 hex characters of the digest. -/
def _analyze_writing_style (p : FeatureProvider) (text : String) : String :=
  let style_metrics := String.intercalate ","
    ["avg_sentence_length:" ++ toString (p.calculate_avg_sentence_length text),
     "capitalization_pattern:" ++ p.analyze_capitalization text,
     "emoji_usage_pattern:" ++ p.analyze_emoji_usage text,
     "punctuation_rate:" ++ toString (p.calculate_punctuation_rate text),
     "typing_rhythm:" ++ p.estimate_typing_rhythm text,
     "vocabulary_richness:" ++ toString (p.calculate_vocabulary_richness text)]
  strTake (sha256Hex style_metrics) 32

/-- Modelled from the spec: `_analyze_temporal_pattern` is called by
`create_message_fingerprint` but defined nowhere in the repository; it is a
function of the message's timestamp metadata. -/
def _analyze_temporal_pattern (message : Message) : String :=
  strTake (sha256Hex (toString message.date)) 32

/-- Modelled from the spec: `_generate_metadata_hash` is called by
`create_message_fingerprint` but defined nowhere in the repository; a digest
of the sender / chat / timestamp metadata. -/
def _generate_metadata_hash (message : Message) : String :=
  strTake (sha256Hex (String.intercalate ","
    [toString message.user_id, toString message.chat_id,
     toString message.date])) 32

/-- Modelled from the spec: `_generate_composite_fingerprint` is called by
`create_message_fingerprint` but defined nowhere in the repository; the spec
calls it "a stable identifier combining the above for indexing". -/
def _generate_composite_fingerprint (p : FeatureProvider) (message : Message) :
    String :=
  strTake (sha256Hex (_generate_content_hash message.textD ++
    _generate_semantic_hash p message.textD ++
    _analyze_writing_style p message.textD ++
    _generate_metadata_hash message)) 32

/-- The `MessageFingerprintingEngine` state: the configured feature provider
(standing for the absent NLP helpers) and the forwarding-indicator list
loaded in `__init__`.  `create_message_fingerprint` reads neither mutably. -/
structure MessageFingerprintingEngine where
  features : FeatureProvider
  known_forwarded_patterns : List String

/-- `create_message_fingerprint` (source, `message_fingerprinter.py` 24-35):
`text = message.get('text', '')`, then the six derived fields. -/
def create_message_fingerprint (self : MessageFingerprintingEngine)
    (message : Message) : MessageFingerprint :=
  let text := message.textD
  ⟨_generate_content_hash text,
   _generate_semantic_hash self.features text,
   _analyze_writing_style self.features text,
   _analyze_temporal_pattern message,
   _generate_metadata_hash message,
   _generate_composite_fingerprint self.features message⟩

/-- The exact-match condition of `_find_similar_messages`
(`cross_chat_correlator.py`): `WHERE content_hash = ? OR semantic_hash = ?`.
Two fingerprints satisfying it are treated as duplicates of each other. -/
def exact_match (target row : MessageFingerprint) : Bool :=
  (row.content_hash == target.content_hash) ||
  (row.semantic_hash == target.semantic_hash)

/-! ## Propagation reconstructor (`cross_chat_correlator.py`) -/

/-- Levenshtein inner loop: one new row entry per remaining target
character.  `diag` is the previous row's entry one to the left, `left` the
entry just produced, `old` the remainder of the previous row. -/
def levRowAux (a : Char) : List Char → Nat → Nat → List Nat → List Nat
  | [], _, _, _ => []
  | b :: bs, diag, left, old =>
      let oldj := old.headD 0
      let cost := if a = b then diag else diag + 1
      let nj := min (min (oldj + 1) (left + 1)) cost
      nj :: levRowAux a bs oldj nj old.tail

/-- One Levenshtein dynamic-programming row step for source character `a`. -/
def levRow (a : Char) (t : List Char) (old : List Nat) : List Nat :=
  let n0 := old.headD 0 + 1
  n0 :: levRowAux a t (old.headD 0) n0 old.tail

/-- Fold the row step over the source characters. -/
def levGo (t : List Char) : List Char → List Nat → List Nat
  | [], row => row
  | a :: as, row => levGo t as (levRow a t row)

/-- The Levenshtein edit distance between two strings (structural dynamic
programming, so concrete inputs reduce in the kernel). -/
def editDistance (s t : String) : Nat :=
  (levGo t.toList s.toList (List.range (t.toList.length + 1))).getLastD 0

/-- Modelled from the spec: `_is_likely_forward` is called by
`_reconstruct_propagation_path` but defined nowhere in the repository.  The
spec's "is likely forward" test: "each step's time delta and content delta
are below configured thresholds (default: delta ≤ 24h, edit distance ≤ 20%
of message length)". -/
def _is_likely_forward (prev_msg current_msg : Message) : Bool :=
  (current_msg.date - prev_msg.date ≤ 86400) &&
  (editDistance prev_msg.textD current_msg.textD * 5 ≤
    current_msg.textD.toList.length)

/-- Chronological order on messages: `sorted(..., key=lambda x: x['date'])`
compares the `date` field. -/
def dateLe (a b : Message) : Prop := a.date ≤ b.date

instance : DecidableRel dateLe := fun a b => Int.decLe a.date b.date

instance : IsTotal Message dateLe := ⟨fun a b => Int.le_total a.date b.date⟩

instance : IsTrans Message dateLe := ⟨fun _ _ _ hab hbc => le_trans hab hbc⟩

/-- The chain-building loop of `_reconstruct_propagation_path` (source,
`cross_chat_correlator.py` 61-88).  `chain` is the current chain in reverse
(head = `current_chain[-1]`); a candidate passing `_is_likely_forward`
extends it, any other candidate starts a new chain, and a finished chain is
kept only when it has more than one member. -/
def chainsAux : List Message → List Message → List (List Message)
  | [], chain => if 1 < chain.length then [chain.reverse] else []
  | current_msg :: rest, chain =>
      match chain with
      | [] => chainsAux rest [current_msg]
      | prev_msg :: _ =>
          if _is_likely_forward prev_msg current_msg then
            chainsAux rest (current_msg :: chain)
          else
            (if 1 < chain.length then [chain.reverse] else []) ++
              chainsAux rest [current_msg]

/-- `_reconstruct_propagation_path` (source, lines 61-88): return `[]` on an
empty candidate list, otherwise sort candidates by `date` (Python's stable
sort, modelled by insertion sort) and greedily link them into chains. -/
def _reconstruct_propagation_path (similar_messages : List Message) :
    List (List Message) :=
  match List.insertionSort dateLe similar_messages with
  | [] => []
  | first :: rest => chainsAux rest [first]

/-! ## Source attribution (`source_attribution.py`) -/

/-- An entry of the forwarding chain built by `_reconstruct_forwarding_chain`:
either a forwarded step (with the forwarder and a modification distance) or
the terminal entry marked `status = "original"`.  The source never attaches
any other marker to the chain. -/
inductive ChainEntry where
  | forwarded (message : Message) (forwarder : Int) (timestamp : Int)
      (modifications : Nat)
  | original (message : Message) (timestamp : Int)
deriving DecidableEq

/-- Whether a chain entry is the `status = "original"` terminal entry. -/
def ChainEntry.isOriginal : ChainEntry → Bool
  | .original _ _ => true
  | _ => false

/-- Modelled from the spec: `_detect_modifications` is called by
`_reconstruct_forwarding_chain` but defined nowhere in the repository; the
spec's "modification distance (edit distance or feature delta)". -/
def _detect_modifications (previous current : Message) : Nat :=
  editDistance previous.textD current.textD

/-- The `while current_message and iteration < max_iterations` loop of
`_reconstruct_forwarding_chain` (source, `source_attribution.py` 58-88).
`_find_previous_version` is a database lookup, passed here as a function.
The accumulator holds entries most-recent-first, which is exactly the
`list(reversed(chain))` the source returns. -/
def forwardingChainAux (find_previous_version : Message → Option Message) :
    Nat → Message → List ChainEntry → List ChainEntry
  | 0, _, chain => chain
  | fuel + 1, current_message, chain =>
      match find_previous_version current_message with
      | some previous_version =>
          forwardingChainAux find_previous_version fuel previous_version
            (ChainEntry.forwarded previous_version current_message.user_id
              current_message.date
              (_detect_modifications previous_version current_message) :: chain)
      | none => ChainEntry.original current_message current_message.date :: chain

/-- `_reconstruct_forwarding_chain` (source, lines 58-88) with
`max_iterations = 10`. -/
def _reconstruct_forwarding_chain
    (find_previous_version : Message → Option Message) (message : Message) :
    List ChainEntry :=
  forwardingChainAux find_previous_version 10 message []

/-! ## Leak scorer (`forwarding_monitor.py`) -/

/-- The view of the propagation-analysis dictionary that
`analyze_message_leakage` reads: `propagation_analysis.get('similar_messages',
[])` and `propagation_analysis.get('propagation_path', [])`.  (The
`track_message_propagation` of `cross_chat_correlator.py` in fact never
writes a `similar_messages` key, so in the shipped pipeline that field is
always the `[]` default.) -/
structure Propagation where
  similar_messages : List Message
  propagation_path : List (List Message)
deriving DecidableEq

/-- An exception raised by the trust/relationship score provider
(`_calculate_relationship_score` is defined nowhere in the repository; in
the source an unavailable provider raises). -/
inductive TrustErr where
  | providerUnavailable
deriving DecidableEq

/-- The loop of `_check_trust_network` (source, `forwarding_monitor.py`
47-62): for each similar message in another chat, ask the relationship
provider; a score below `0.3` returns `True`; a provider exception
propagates — the source wraps the call in no handler. -/
def checkTrustAux (rel : Int → Int → Except TrustErr ℚ)
    (original_message : Message) : List Message → Except TrustErr Bool
  | [] => .ok false
  | similar_msg :: rest =>
      if similar_msg.chat_id ≠ original_message.chat_id then
        match rel original_message.user_id similar_msg.user_id with
        | .error e => .error e
        | .ok relationship_score =>
            if relationship_score < 3 / 10 then .ok true
            else checkTrustAux rel original_message rest
      else checkTrustAux rel original_message rest

/-- `_check_trust_network` (source, lines 47-62). -/
def _check_trust_network (rel : Int → Int → Except TrustErr ℚ)
    (original_message : Message) (propagation : Propagation) :
    Except TrustErr Bool :=
  checkTrustAux rel original_message propagation.similar_messages

/-- Modelled from the spec: `_check_temporal_proximity` is called by
`analyze_message_leakage` but defined nowhere in the repository; the spec's
time term is "inversely proportional to elapsed time", here
`1 / (1 + elapsed)` over the first reconstructed chain. -/
def _check_temporal_proximity (propagation : Propagation) : ℚ :=
  match propagation.propagation_path with
  | (first :: rest) :: _ =>
      let lastMsg := rest.getLastD first
      1 / (1 + ((lastMsg.date - first.date).toNat : ℚ))
  | _ => 0

/-- Modelled from the spec: `_detect_content_modification` is called by
`analyze_message_leakage` but defined nowhere in the repository; whether any
adjacent chain members differ textually (nonzero modification distance). -/
def _detect_content_modification (propagation : Propagation) : Bool :=
  propagation.propagation_path.any fun chain =>
    (chain.zip (chain.drop 1)).any fun pr =>
      editDistance pr.1.textD pr.2.textD ≠ 0

/-- The `leak_indicators` dictionary of `analyze_message_leakage`. -/
structure LeakIndicators where
  cross_chat_appearance : Bool
  temporal_proximity : ℚ
  content_modification : Bool
  trust_network_violation : Bool
deriving DecidableEq

/-- Clamp a rational to the unit interval. -/
def clamp01 (x : ℚ) : ℚ := max 0 (min 1 x)

/-- Modelled from the spec: `_calculate_leak_confidence` is called by
`analyze_message_leakage` but defined nowhere in the repository.  The spec:
"weighted sum of: cross-chat appearance (weight 0.4), short
time-to-cross-chat-propagation (weight 0.3 […]), low historical
trust/relationship score […] (weight 0.3).  Result clamped to [0,1]". -/
def _calculate_leak_confidence (ind : LeakIndicators) : ℚ :=
  clamp01 (2 / 5 * (if ind.cross_chat_appearance then 1 else 0) +
    3 / 10 * ind.temporal_proximity +
    3 / 10 * (if ind.trust_network_violation then 1 else 0))

/-- Modelled from the spec: `_identify_primary_leaker` is called by
`analyze_message_leakage` but defined nowhere in the repository; the spec's
`suspected_leaker` is "the sender of the first message in the chain that
crosses a chat boundary". -/
def _identify_primary_leaker (propagation : Propagation) : Option Int :=
  match propagation.propagation_path with
  | (first :: rest) :: _ =>
      (rest.find? fun m => m.chat_id ≠ first.chat_id).map Message.user_id
  | _ => none

/-- The result dictionary of `analyze_message_leakage` (source,
`forwarding_monitor.py` 27-45).  It has no `confidence_degraded` key — the
source never sets one. -/
structure LeakAnalysis where
  message_id : Int
  leak_confidence : ℚ
  leak_indicators : LeakIndicators
  propagation_path : List (List Message)
  suspected_leaker : Option Int
deriving DecidableEq

/-- `analyze_message_leakage` (source, lines 27-45), with the propagation
analysis passed as the dictionary view it reads and the relationship
provider as a function.  A provider exception propagates — the source has no
`try/except`. -/
def analyze_message_leakage (rel : Int → Int → Except TrustErr ℚ)
    (message : Message) (propagation : Propagation) :
    Except TrustErr LeakAnalysis :=
  match _check_trust_network rel message propagation with
  | .error e => .error e
  | .ok tv =>
      let indicators : LeakIndicators :=
        ⟨1 < propagation.similar_messages.length,
         _check_temporal_proximity propagation,
         _detect_content_modification propagation,
         tv⟩
      .ok ⟨message.id, _calculate_leak_confidence indicators, indicators,
           propagation.propagation_path, _identify_primary_leaker propagation⟩

/-! ## Monitoring loop (`forwarding_monitor.py` 11-25,
`realtime_monitor.py` 7-21)

Both loops are `while True:` bodies followed by a constant
`asyncio.sleep`; neither wraps its body in any exception handler.  The loop
is modelled over a finite schedule: `cycle i` is the outcome of the `i`-th
monitoring cycle (`.error` models an unhandled exception in that cycle),
and running the loop for `n` cycles stops at the first error, which
propagates out of the loop — exactly what an unhandled exception in the
`while True:` body does. -/

/-- The constant polling interval of `monitor_conversation_leaks`:
`await asyncio.sleep(300)` after every cycle, failures included — there is
no backoff of any kind in the source. -/
def monitor_sleep_seconds : Nat := 300

/-- The constant polling interval of `monitor_manipulation_activity`:
`await asyncio.sleep(30)`. -/
def realtime_sleep_seconds : Nat := 30

/-- Run the monitoring loop from cycle `i` for `n` more cycles, stopping at
the first cycle that raises; returns the index after the last completed
cycle. -/
def monitorRunAux (cycle : Nat → Except TrustErr Unit) :
    Nat → Nat → Except TrustErr Nat
  | i, 0 => .ok i
  | i, n + 1 =>
      match cycle i with
      | .error e => .error e
      | .ok _ => monitorRunAux cycle (i + 1) n

/-- The `while True:` loop of `monitor_conversation_leaks`, observed for its
first `n` cycles. -/
def monitor_conversation_leaks (cycle : Nat → Except TrustErr Unit)
    (n : Nat) : Except TrustErr Nat :=
  monitorRunAux cycle 0 n

/-! ## Concrete inputs for witnesses and counterexamples -/

/-- A feature provider with constant features — the pluggable NLP provider
instantiated trivially for concrete evaluation. -/
def nullProvider : FeatureProvider :=
  ⟨fun _ => "", fun _ => "neutral", fun _ => "", fun _ => "",
   fun _ => 0, fun _ => 0, fun _ => "", fun _ => 0, fun _ => "", fun _ => ""⟩

/-- A fingerprinting engine over the trivial provider. -/
def nullEngine : MessageFingerprintingEngine := ⟨nullProvider, []⟩

/-- A message with text `"a b"`. -/
def msgWs1 : Message := ⟨1, 1, 1, 0, some "a b"⟩

/-- The same message except its text has an extra space: `"a  b"`. -/
def msgWs2 : Message := ⟨1, 1, 1, 0, some "a  b"⟩

/-- A message that appears twice in a candidate list. -/
def msgDup : Message := ⟨7, 3, 1, 100, some "hi"⟩

/-- Two messages with no textual overlap. -/
def msgU1 : Message := ⟨11, 4, 1, 0, some "abcd"⟩

/-- Second unrelated message (different chat, later). -/
def msgU2 : Message := ⟨12, 5, 2, 50, some "wxyz"⟩

/-- An empty-text message. -/
def msgE1 : Message := ⟨21, 6, 1, 10, some ""⟩

/-- A second empty-text message — its dictionary has no `text` key at all. -/
def msgE2 : Message := ⟨22, 7, 2, 20, none⟩

/-- A message to walk the forwarding chain from. -/
def msgC3 : Message := ⟨30, 8, 1, 1000, some "x"⟩

/-- A previous-version lookup that always finds an earlier version: an
unbounded ancestry (synthetic clock-skewed data). -/
def prevAlways : Message → Option Message :=
  fun m => some ⟨m.id + 1, m.user_id, m.chat_id, m.date - 1, m.text⟩

/-- A relationship provider that always raises (trust provider
unavailable). -/
def relFail : Int → Int → Except TrustErr ℚ :=
  fun _ _ => .error .providerUnavailable

/-- A relationship provider that always answers with full trust. -/
def relOk : Int → Int → Except TrustErr ℚ := fun _ _ => .ok 1

/-- The message whose leakage is analyzed in the concrete runs. -/
def msgC8 : Message := ⟨40, 9, 1, 0, some "secret"⟩

/-- A propagation view with one cross-chat similar message. -/
def propCross : Propagation := ⟨[⟨41, 10, 2, 30, some "secret"⟩], []⟩

/-- A propagation view with two cross-chat similar messages. -/
def propCross2 : Propagation :=
  ⟨[⟨41, 10, 2, 30, some "secret"⟩, ⟨42, 11, 3, 60, some "secret"⟩], []⟩

/-- An empty propagation view (what the shipped pipeline always yields for
`similar_messages`, since `track_message_propagation` never writes that
key). -/
def propEmpty : Propagation := ⟨[], []⟩

/-- A monitoring schedule whose first cycle raises. -/
def cycleFail0 : Nat → Except TrustErr Unit :=
  fun i => if i = 0 then .error .providerUnavailable else .ok ()

/-- A monitoring schedule whose second cycle raises. -/
def cycleFail1 : Nat → Except TrustErr Unit :=
  fun i => if i = 1 then .error .providerUnavailable else .ok ()

/-- The leak analysis `analyze_message_leakage relOk msgC8 propEmpty`
produces: no indicators fire. -/
def leakW : LeakAnalysis :=
  ⟨40, _calculate_leak_confidence ⟨false, 0, false, false⟩,
   ⟨false, 0, false, false⟩, [], none⟩

/-- First of two verbatim-identical messages in different chats. -/
def msgF1 : Message := ⟨51, 12, 1, 0, some "hello"⟩

/-- Second verbatim-identical message, an hour later in another chat. -/
def msgF2 : Message := ⟨52, 13, 2, 3600, some "hello"⟩

/-! ## Theorems -/

set_option maxRecDepth 1000000
set_option maxHeartbeats 1000000

/-- Sanity vector: the embedded SHA-256 agrees with FIPS 180-4 on the empty
message. -/
theorem sha256Hex_empty_vector :
    sha256Hex "" =
      "e3b0c44298fc1c149afbf4c8996fb92427ae41e4649b934ca495991b7852b855" := by
  decide

/-- Sanity vector: the embedded SHA-256 agrees with FIPS 180-4 on `"abc"`. -/
theorem sha256Hex_abc_vector :
    sha256Hex "abc" =
      "ba7816bf8f01cfea414140de5dae2223b00361a396177a9cb410ff61f20015ad" := by
  decide

/-- Sanity vector: the edit-distance implementation on the classic pair. -/
theorem editDistance_kitten_sitting : editDistance "kitten" "sitting" = 3 := by
  decide

/-- Every chain emitted by the chain-building loop is sorted by date,
provided the pending chain (reversed) followed by the remaining candidates
is sorted. -/
theorem chainsAux_sorted (rest : List Message) :
    ∀ chain : List Message, List.Sorted dateLe (chain.reverse ++ rest) →
      ∀ c ∈ chainsAux rest chain, List.Sorted dateLe c := by
  induction rest with
  | nil =>
      intro chain h c hc
      simp only [chainsAux] at hc
      by_cases hl : 1 < chain.length
      · rw [if_pos hl] at hc
        simp only [List.mem_singleton] at hc
        subst hc
        simpa using h
      · rw [if_neg hl] at hc
        simp at hc
  | cons m ms ih =>
      intro chain h c hc
      cases chain with
      | nil =>
          simp only [chainsAux] at hc
          exact ih [m] (by simpa using h) c hc
      | cons prev tl =>
          simp only [chainsAux] at hc
          by_cases hf : _is_likely_forward prev m = true
          · rw [if_pos hf] at hc
            apply ih (m :: prev :: tl) _ c hc
            have e1 : (m :: prev :: tl).reverse ++ ms =
                (prev :: tl).reverse ++ (m :: ms) := by simp
            rw [e1]
            exact h
          · rw [if_neg hf, List.mem_append] at hc
            rcases hc with hc | hc
            · by_cases hl : 1 < (prev :: tl).length
              · rw [if_pos hl] at hc
                simp only [List.mem_singleton] at hc
                subst hc
                exact (List.pairwise_append.mp h).1
              · rw [if_neg hl] at hc
                simp at hc
            · apply ih [m] _ c hc
              simpa using (List.pairwise_append.mp h).2.1

/-- Every chain emitted by the chain-building loop has at least two
members (the source keeps a chain only when `len(current_chain) > 1`). -/
theorem chainsAux_two_le (rest : List Message) :
    ∀ chain : List Message, ∀ c ∈ chainsAux rest chain, 2 ≤ c.length := by
  induction rest with
  | nil =>
      intro chain c hc
      simp only [chainsAux] at hc
      by_cases hl : 1 < chain.length
      · rw [if_pos hl] at hc
        simp only [List.mem_singleton] at hc
        subst hc
        rw [List.length_reverse]
        exact hl
      · rw [if_neg hl] at hc
        simp at hc
  | cons m ms ih =>
      intro chain c hc
      cases chain with
      | nil =>
          simp only [chainsAux] at hc
          exact ih [m] c hc
      | cons prev tl =>
          simp only [chainsAux] at hc
          by_cases hf : _is_likely_forward prev m = true
          · rw [if_pos hf] at hc
            exact ih (m :: prev :: tl) c hc
          · rw [if_neg hf, List.mem_append] at hc
            rcases hc with hc | hc
            · by_cases hl : 1 < (prev :: tl).length
              · rw [if_pos hl] at hc
                simp only [List.mem_singleton] at hc
                subst hc
                rw [List.length_reverse]
                exact hl
              · rw [if_neg hl] at hc
                simp at hc
            · exact ih [m] c hc

/-- C2 (amended): every chain produced by `_reconstruct_propagation_path`
has non-decreasing timestamps (the candidates are sorted by `date` before
chaining).  The claim's second half — no message id appears twice in a
chain — fails: the loop has no visited-set, see the counterexample. -/
theorem propagation_timestamps_sorted (similar_messages : List Message)
    (c : List Message) (hc : c ∈ _reconstruct_propagation_path similar_messages) :
    List.Sorted dateLe c := by
  unfold _reconstruct_propagation_path at hc
  rcases hs : List.insertionSort dateLe similar_messages with _ | ⟨first, rest⟩ <;>
    rw [hs] at hc
  · simp at hc
  · apply chainsAux_sorted rest [first] _ c hc
    have hsort := List.sorted_insertionSort dateLe similar_messages
    rw [hs] at hsort
    simpa using hsort

/-- C2 (witness): a concrete produced chain, with its sortedness obtained
from the theorem. -/
theorem propagation_timestamps_sorted_witness :
    [msgDup, msgDup] ∈ _reconstruct_propagation_path [msgDup, msgDup] ∧
      List.Sorted dateLe [msgDup, msgDup] :=
  ⟨by decide,
   propagation_timestamps_sorted [msgDup, msgDup] [msgDup, msgDup] (by decide)⟩

/-- C2 (counterexample): the claim "no message id appears twice in the same
chain" is false — a candidate list carrying the same message twice (the
exact-match query and the semantic scan of `_find_similar_messages` can both
return the same row) yields a chain in which id 7 appears twice; the loop
never checks for revisits. -/
theorem duplicate_candidate_chain_counterexample :
    _reconstruct_propagation_path [msgDup, msgDup] = [[msgDup, msgDup]] ∧
      ¬ ([msgDup, msgDup].map (fun m => m.id)).Nodup := by
  decide

/-- C7 (amended): every chain `_reconstruct_propagation_path` returns has at
least two members; in particular a target with no ancestors yields an empty
result — not the single-element chain the claim states. -/
theorem propagation_chain_members_two_le (similar_messages : List Message)
    (c : List Message) (hc : c ∈ _reconstruct_propagation_path similar_messages) :
    2 ≤ c.length := by
  unfold _reconstruct_propagation_path at hc
  rcases hs : List.insertionSort dateLe similar_messages with _ | ⟨first, rest⟩ <;>
    rw [hs] at hc
  · simp at hc
  · exact chainsAux_two_le rest [first] c hc

/-- C7 (witness): a produced two-member chain, its length bound obtained
from the theorem. -/
theorem propagation_chain_members_two_le_witness :
    [msgF1, msgF2] ∈ _reconstruct_propagation_path [msgF1, msgF2] ∧
      2 ≤ ([msgF1, msgF2] : List Message).length :=
  ⟨by decide,
   propagation_chain_members_two_le [msgF1, msgF2] [msgF1, msgF2] (by decide)⟩

/-- C7 (counterexample): for a target with no ancestors the source returns
`[]`, not a single-element chain — `if len(current_chain) > 1` discards every
one-member chain.  Shown both for two unrelated messages (the spec's
scenario) and for a lone target. -/
theorem no_ancestor_empty_result_counterexample :
    _reconstruct_propagation_path [msgU1, msgU2] = [] ∧
      _reconstruct_propagation_path [msgU1] = [] := by
  decide

/-- The forwarding-chain walk produces at most `fuel` entries beyond the
accumulator. -/
theorem forwardingChainAux_length (f : Message → Option Message) :
    ∀ (fuel : Nat) (m : Message) (acc : List ChainEntry),
      (forwardingChainAux f fuel m acc).length ≤ fuel + acc.length := by
  intro fuel
  induction fuel with
  | zero => intro m acc; simp [forwardingChainAux]
  | succ n ih =>
      intro m acc
      simp only [forwardingChainAux]
      cases hf : f m with
      | some prev =>
          simp only [hf]
          have h := ih prev
            (ChainEntry.forwarded prev m.user_id m.date
              (_detect_modifications prev m) :: acc)
          simp only [List.length_cons] at h
          omega
      | none =>
          simp only [hf, List.length_cons]
          omega

/-- C3 (amended): `_reconstruct_forwarding_chain` walks at most 10 hops
(`max_iterations = 10`) and, being a total function, raises nothing; but
reaching the cap is *not* reported — the source sets no `MaxHopsExceeded`
flag, see the counterexample. -/
theorem forwarding_chain_at_most_ten (f : Message → Option Message)
    (message : Message) :
    (_reconstruct_forwarding_chain f message).length ≤ 10 := by
  simpa using forwardingChainAux_length f 10 message []

/-- C3 (counterexample): with an unbounded ancestry (clock-skewed data,
every message has an earlier version) the walk stops after exactly 10 hops
and returns a chain of 10 forwarded entries carrying no marker whatsoever —
no `MaxHopsExceeded` flag (no such field exists anywhere in the source) and
not even the `status = "original"` terminal entry. -/
theorem max_hops_silent_truncation_counterexample :
    (_reconstruct_forwarding_chain prevAlways msgC3).length = 10 ∧
      (_reconstruct_forwarding_chain prevAlways msgC3).all
        (fun e => !e.isOriginal) = true := by
  decide

/-- The clamp lower bound. -/
theorem clamp01_nonneg (x : ℚ) : 0 ≤ clamp01 x := le_max_left 0 _

/-- The clamp upper bound. -/
theorem clamp01_le_one (x : ℚ) : clamp01 x ≤ 1 :=
  max_le zero_le_one (min_le_left 1 x)

/-- C4: whenever `analyze_message_leakage` returns a result, its
`leak_confidence` — the weighted sum of the cross-chat, time-proximity and
trust terms, clamped — lies in the closed interval `[0, 1]`. -/
theorem leak_confidence_unit_interval (rel : Int → Int → Except TrustErr ℚ)
    (message : Message) (propagation : Propagation) (r : LeakAnalysis)
    (h : analyze_message_leakage rel message propagation = .ok r) :
    0 ≤ r.leak_confidence ∧ r.leak_confidence ≤ 1 := by
  unfold analyze_message_leakage at h
  rcases ht : _check_trust_network rel message propagation with e | tv <;>
    rw [ht] at h
  · simp at h
  · injection h with h2
    subst h2
    exact ⟨clamp01_nonneg _, clamp01_le_one _⟩

/-- C4 (witness): the concrete run over an empty propagation view returns
`leakW`, whose confidence the theorem bounds. -/
theorem leak_confidence_unit_interval_witness :
    0 ≤ leakW.leak_confidence ∧ leakW.leak_confidence ≤ 1 :=
  leak_confidence_unit_interval relOk msgC8 propEmpty leakW rfl

/-- C5: `create_message_fingerprint` is deterministic — two evaluations on
the same engine state and message are equal.  Side-effect-freedom holds by
construction of the embedding: the function is a pure function of the engine
configuration and the message, and returns no modified state. -/
theorem fingerprint_deterministic (self : MessageFingerprintingEngine)
    (message : Message) :
    create_message_fingerprint self message =
      create_message_fingerprint self message := rfl

/-- C6 (amended): an empty-text message's `content_hash` is the content hash
of the empty string, and *therefore* two empty-text messages have matching
fingerprints: the exact-match lookup (`content_hash = ?`) treats them as
duplicates of each other — the source has no degraded-confidence guard, see
the counterexample. -/
theorem empty_text_fingerprint_duplicates (self : MessageFingerprintingEngine)
    (m1 m2 : Message) (h1 : m1.textD = "") (h2 : m2.textD = "") :
    (create_message_fingerprint self m1).content_hash =
      _generate_content_hash "" ∧
    exact_match (create_message_fingerprint self m1)
      (create_message_fingerprint self m2) = true := by
  have c1 : (create_message_fingerprint self m1).content_hash =
      _generate_content_hash "" := by
    simp only [create_message_fingerprint]
    rw [h1]
  have c2 : (create_message_fingerprint self m2).content_hash =
      _generate_content_hash "" := by
    simp only [create_message_fingerprint]
    rw [h2]
  refine ⟨c1, ?_⟩
  simp [exact_match, c1, c2]

/-- C6 (witness): the theorem applied to two concrete empty-text messages
(one with `text = ""`, one with no text key at all). -/
theorem empty_text_fingerprint_duplicates_witness :
    (create_message_fingerprint nullEngine msgE1).content_hash =
      _generate_content_hash "" ∧
    exact_match (create_message_fingerprint nullEngine msgE1)
      (create_message_fingerprint nullEngine msgE2) = true :=
  empty_text_fingerprint_duplicates nullEngine msgE1 msgE2 rfl rfl

/-- C6 (counterexample): the claim "two empty-text messages are never
treated as duplicates of each other" is false — two distinct empty-text
messages satisfy the duplicate (exact-match) test of the similarity
lookup. -/
theorem empty_text_messages_match_counterexample :
    msgE1.textD = "" ∧ msgE2.textD = "" ∧ msgE1 ≠ msgE2 ∧
      exact_match (create_message_fingerprint nullEngine msgE1)
        (create_message_fingerprint nullEngine msgE2) = true := by
  decide

/-- C1 (amended): for texts that differ only in whitespace and/or letter
case (equal `wsTokens`), the digest of the *normalized* text — the first of
the three digests `_generate_content_hash` combines — is equal.  The full
`content_hash` is nevertheless different in general, because the combined
hash also covers the raw lower-cased text and raw-text n-grams; see the
counterexample. -/
theorem normalized_digest_invariant (t1 t2 : String)
    (h : wsTokens t1 = wsTokens t2) :
    sha256Hex (_normalize_text t1) = sha256Hex (_normalize_text t2) := by
  unfold _normalize_text
  rw [h]

/-- C1 (witness): the theorem applied to two texts differing in case and
whitespace. -/
theorem normalized_digest_invariant_witness :
    wsTokens "Hello  World" = wsTokens "hello world" ∧
      sha256Hex (_normalize_text "Hello  World") =
        sha256Hex (_normalize_text "hello world") :=
  ⟨by decide, normalized_digest_invariant "Hello  World" "hello world" (by decide)⟩

/-- C1 (counterexample): two messages whose texts differ only in whitespace
(`"a b"` vs `"a  b"`, equal `wsTokens`) get *different* content hashes:
`_generate_content_hash` also hashes `text.lower()` of the raw,
un-collapsed text. -/
theorem whitespace_variant_content_hash_ne :
    wsTokens msgWs1.textD = wsTokens msgWs2.textD ∧
      (create_message_fingerprint nullEngine msgWs1).content_hash ≠
        (create_message_fingerprint nullEngine msgWs2).content_hash := by
  decide

/-- C10: a message dictionary without a `'text'` key is fingerprinted
exactly like the same message with empty text — `message.get('text', '')`
defaults the text, so `content_hash`, `semantic_hash` and `style_signature`
coincide, and no error is raised (the embedding is a total function). -/
theorem missing_text_key_defaults (self : MessageFingerprintingEngine)
    (i u c d : Int) :
    (create_message_fingerprint self ⟨i, u, c, d, none⟩).content_hash =
      (create_message_fingerprint self ⟨i, u, c, d, some ""⟩).content_hash ∧
    (create_message_fingerprint self ⟨i, u, c, d, none⟩).semantic_hash =
      (create_message_fingerprint self ⟨i, u, c, d, some ""⟩).semantic_hash ∧
    (create_message_fingerprint self ⟨i, u, c, d, none⟩).style_signature =
      (create_message_fingerprint self ⟨i, u, c, d, some ""⟩).style_signature :=
  ⟨rfl, rfl, rfl⟩

/-- If every similar message in another chat makes the relationship provider
raise, `checkTrustAux` propagates the exception. -/
theorem checkTrustAux_error (rel : Int → Int → Except TrustErr ℚ)
    (e : TrustErr) (orig : Message) (hrel : ∀ a b, rel a b = .error e) :
    ∀ l : List Message, (∃ m ∈ l, m.chat_id ≠ orig.chat_id) →
      checkTrustAux rel orig l = .error e := by
  intro l
  induction l with
  | nil => rintro ⟨m, hm, _⟩; simp at hm
  | cons x xs ih =>
      rintro ⟨m, hm, hne⟩
      simp only [checkTrustAux]
      by_cases hx : x.chat_id ≠ orig.chat_id
      · rw [if_pos hx, hrel]
      · rw [if_neg hx]
        rcases List.mem_cons.mp hm with h | h
        · subst h; exact absurd hne hx
        · exact ih ⟨m, h, hne⟩

/-- C8 (amended): when the trust/relationship provider raises while a
cross-chat similar message is examined, the exception propagates out of
`analyze_message_leakage` — the source wraps nothing in `try/except`, sets
no `confidence_degraded` flag (no such key exists in its result dictionary)
and produces no degraded assessment. -/
theorem trust_error_propagates (rel : Int → Int → Except TrustErr ℚ)
    (e : TrustErr) (message : Message) (propagation : Propagation)
    (hrel : ∀ a b, rel a b = .error e)
    (hex : ∃ m ∈ propagation.similar_messages, m.chat_id ≠ message.chat_id) :
    analyze_message_leakage rel message propagation = .error e := by
  unfold analyze_message_leakage _check_trust_network
  rw [checkTrustAux_error rel e message hrel propagation.similar_messages hex]

/-- C8 (witness): the theorem applied to a concrete failing provider and a
propagation view with two cross-chat matches. -/
theorem trust_error_propagates_witness :
    analyze_message_leakage relFail msgC8 propCross2 =
      .error .providerUnavailable :=
  trust_error_propagates relFail .providerUnavailable msgC8 propCross2
    (fun _ _ => rfl) ⟨⟨41, 10, 2, 30, some "secret"⟩, by decide, by decide⟩

/-- C8 (counterexample): the claim "the scoring operation still returns a
result with `confidence_degraded = true`" is false — with an unavailable
provider and one cross-chat match the operation returns no result at all:
the exception escapes. -/
theorem trust_provider_exception_counterexample :
    analyze_message_leakage relFail msgC8 propCross =
      .error .providerUnavailable := rfl

/-- Running the monitoring loop over a schedule whose `k`-th cycle raises
(after `k` clean cycles) ends with that exception. -/
theorem monitorRunAux_error (cycle : Nat → Except TrustErr Unit)
    (e : TrustErr) :
    ∀ (k i n : Nat), k < n → (∀ j, j < k → cycle (i + j) = .ok ()) →
      cycle (i + k) = .error e → monitorRunAux cycle i n = .error e := by
  intro k
  induction k with
  | zero =>
      intro i n hn _ hk
      cases n with
      | zero => omega
      | succ n =>
          simp only [monitorRunAux]
          have hk0 : cycle i = .error e := hk
          rw [hk0]
  | succ k ih =>
      intro i n hn hok hk
      cases n with
      | zero => omega
      | succ n =>
          simp only [monitorRunAux]
          have h0 : cycle i = .ok () := hok 0 (Nat.succ_pos k)
          rw [h0]
          apply ih (i + 1) n (by omega)
          · intro j hj
            have h := hok (j + 1) (by omega)
            have e1 : i + (j + 1) = i + 1 + j := by omega
            rwa [e1] at h
          · have e2 : i + (k + 1) = i + 1 + k := by omega
            rwa [e2] at hk

/-- C9 (amended): an unhandled exception in a monitoring cycle *terminates*
the `while True:` loop of `monitor_conversation_leaks` — the loop body has
no exception handler, and the polling interval is the constant
`monitor_sleep_seconds = 300` with no backoff of any kind. -/
theorem monitor_loop_dies_on_cycle_error (cycle : Nat → Except TrustErr Unit)
    (n k : Nat) (e : TrustErr) (hkn : k < n)
    (hok : ∀ j, j < k → cycle j = .ok ()) (hk : cycle k = .error e) :
    monitor_conversation_leaks cycle n = .error e := by
  unfold monitor_conversation_leaks
  apply monitorRunAux_error cycle e k 0 n hkn
  · intro j hj
    simpa using hok j hj
  · simpa using hk

/-- C9 (witness): the theorem applied to a schedule whose second cycle
raises. -/
theorem monitor_loop_dies_witness :
    monitor_conversation_leaks cycleFail1 3 = .error .providerUnavailable :=
  monitor_loop_dies_on_cycle_error cycleFail1 3 1 .providerUnavailable
    (by decide)
    (fun j hj => by
      have hj0 : j = 0 := by omega
      subst hj0
      rfl)
    rfl

/-- C9 (counterexample): the claim "the loop continues after backoff; a
single unhandled exception must not terminate the loop" is false — a
schedule whose first cycle raises ends the whole loop with that exception,
and the sleep interval is the constant 300 seconds, not an exponential
backoff. -/
theorem monitoring_loop_terminates_counterexample :
    monitor_conversation_leaks cycleFail0 3 = .error .providerUnavailable ∧
      monitor_sleep_seconds = 300 := ⟨rfl, rfl⟩

end Zillagram
